import Mathlib

/-!
# Verification of the comment-backend service (`src/index.js`)

A shallow embedding of the visitor/comment backend: the data model
(Visitor and Comment schemas), the session-token issuer built on a
signing secret, the two authentication middlewares, and the five
workflow handlers (login-or-register, submit comment, public listing,
admin approve, and the error boundary).  All definitions are translated
directly from `src/index.js`; the document store is modelled as lists
of records carried in an explicit `DB` state, with Mongoose operations
(`findOne`, `findById`, `findByIdAndUpdate`, `save`, `find?/sort/limit/select`)
embedded as the corresponding list operations.
-/

namespace Backend

/-- Visitor record, from the `visitorSchema` (src/index.js lines 45-53):
`name`, unique `email`, `commentCount` defaulting to 0, optional
`lastCommentAt`, `createdAt`, and the `isAdmin` flag defaulting to false.
Timestamps are modelled as naturals; the Mongo `_id` as a natural `id`. -/
structure Visitor where
  id : Nat
  name : String
  email : String
  commentCount : Nat
  lastCommentAt : Option Nat
  createdAt : Nat
  isAdmin : Bool
deriving Repr, DecidableEq

/-- Comment record, from the `commentSchema` (src/index.js lines 59-67):
snapshot `name`/`email`, `message`, `approved` flag, `visitorId`
back-reference, per-visitor `commentNumber`, `createdAt`. -/
structure Comment where
  id : Nat
  name : String
  email : String
  message : String
  approved : Bool
  visitorId : Nat
  commentNumber : Nat
  createdAt : Nat
deriving Repr, DecidableEq

/-- The `commentSchema` declares `approved: { type: Boolean, default: false }`
(src/index.js line 63). -/
def commentSchemaApprovedDefault : Bool := false

/-- The document store: the `visitors` and `comments` collections plus
fresh-id counters standing in for Mongo object-id generation. -/
structure DB where
  visitors : List Visitor
  comments : List Comment
  nextVisitorId : Nat
  nextCommentId : Nat
deriving Repr, DecidableEq

/-- `Visitor.findById(i)` — first visitor whose id matches. -/
def findVisitorById (db : DB) (i : Nat) : Option Visitor :=
  db.visitors.find? (fun v => v.id = i)

/-- `Visitor.findOne({ email })` — first visitor whose email matches. -/
def findVisitorByEmail (db : DB) (e : String) : Option Visitor :=
  db.visitors.find? (fun v => v.email = e)

/-- `Comment.findById(i)` — first comment whose id matches. -/
def findCommentById (db : DB) (i : Nat) : Option Comment :=
  db.comments.find? (fun c => c.id = i)

/-- JWT claims embedded at `jwt.sign` call sites (src/index.js lines
146-153): visitorId, email, name, commentCount, and the admin flag. -/
structure Claims where
  visitorId : Nat
  email : String
  name : String
  commentCount : Nat
  isAdmin : Bool
deriving Repr, DecidableEq

/-- A signed session token: the claims, the secret it was signed with,
and whether its 24h expiry has passed at verification time. -/
structure SignedToken where
  claims : Claims
  secretUsed : String
  expired : Bool
deriving Repr, DecidableEq

/-- `process.env.JWT_SECRET || "your-secret-key"` (src/index.js lines 81,
99, 154, 203): the configured secret when present and truthy, otherwise
the fixed literal fallback. -/
def jwtSecret (env : Option String) : String :=
  match env with
  | none => "your-secret-key"
  | some "" => "your-secret-key"
  | some s => s

/-- `jwt.verify(token, secret, cb)`: succeeds with the embedded claims
exactly when the token was signed with `secret` and is not expired;
otherwise the callback receives an error (modelled as `none`, covering
malformed, expired and badly-signed tokens alike). -/
def jwtVerify (secret : String) (t : SignedToken) : Option Claims :=
  if t.secretUsed = secret ∧ t.expired = false then some t.claims else none

/-- `jwt.sign(claims, secret, { expiresIn: "24h" })`: a fresh token is
signed with `secret` and not yet expired. -/
def jwtSign (c : Claims) (secret : String) : SignedToken :=
  { claims := c, secretUsed := secret, expired := false }

/-- The claims object built at the `jwt.sign` call in the login handler
(src/index.js lines 146-153). -/
def claimsOf (v : Visitor) : Claims :=
  { visitorId := v.id, email := v.email, name := v.name
    commentCount := v.commentCount, isAdmin := v.isAdmin }

/-- The `Authorization` header after `authHeader.split(" ")`: a scheme
word and, when the header has a second segment, the bearer credential.
`credential = none` models a header with no token part
(`authHeader.split(" ")[1]` undefined, hence falsy). -/
structure AuthHeader where
  scheme : String
  credential : Option SignedToken
deriving Repr, DecidableEq

/-- `const token = authHeader && authHeader.split(" ")[1]`
(src/index.js lines 74-75): no header, or a header with no second
segment, yields no token. -/
def extractToken (h : Option AuthHeader) : Option SignedToken :=
  h.bind AuthHeader.credential

/-- Outcome of an auth middleware: the early error responses it can send,
or `proceed` handing the verified claims (`req.user = user; next()`) to
the route handler. -/
inductive AuthOutcome where
  | unauthenticated (msg : String)
  | forbidden (msg : String)
  | proceed (claims : Claims)
deriving Repr, DecidableEq

/-- `authenticateToken` middleware (src/index.js lines 73-88): 401
`"Access token required"` when no bearer credential is present, 403
`"Invalid token"` when `jwt.verify` fails, otherwise attach the verified
claims and proceed. -/
def authenticateToken (env : Option String) (h : Option AuthHeader) : AuthOutcome :=
  match extractToken h with
  | none => .unauthenticated "Access token required"
  | some t =>
    match jwtVerify (jwtSecret env) t with
    | none => .forbidden "Invalid token"
    | some user => .proceed user

/-- `authenticateAdmin` middleware (src/index.js lines 91-120): same
token extraction and verification, then `Visitor.findById(user.visitorId)`
against the store; 403 `"Admin access denied"` when the visitor is
missing or `!visitor.isAdmin`, otherwise proceed. -/
def authenticateAdmin (env : Option String) (db : DB) (h : Option AuthHeader) : AuthOutcome :=
  match extractToken h with
  | none => .unauthenticated "Access token required"
  | some t =>
    match jwtVerify (jwtSecret env) t with
    | none => .forbidden "Invalid token"
    | some user =>
      match findVisitorById db user.visitorId with
      | none => .forbidden "Admin access denied"
      | some visitor =>
        if visitor.isAdmin then .proceed user
        else .forbidden "Admin access denied"

/-- The visitor summary returned by the login and profile handlers
(src/index.js lines 161-167). -/
structure VisitorSummary where
  id : Nat
  name : String
  email : String
  commentCount : Nat
  isAdmin : Bool
deriving Repr, DecidableEq

/-- Summary projection of a visitor record. -/
def summaryOf (v : Visitor) : VisitorSummary :=
  { id := v.id, name := v.name, email := v.email
    commentCount := v.commentCount, isAdmin := v.isAdmin }

/-- Result of `POST /api/visitor/login`. -/
inductive LoginResult where
  | missingEmail
  | missingName
  | success (token : SignedToken) (visitor : VisitorSummary)
deriving Repr, DecidableEq

/-- The visitor created by `new Visitor({ name, email })` plus schema
defaults (src/index.js line 141): commentCount 0, isAdmin false,
createdAt now, no lastCommentAt. -/
def newVisitor (db : DB) (now : Nat) (e nm : String) : Visitor :=
  { id := db.nextVisitorId, name := nm, email := e, commentCount := 0
    lastCommentAt := none, createdAt := now, isAdmin := false }

/-- `POST /api/visitor/login` handler (src/index.js lines 123-173):
400 when email is absent (or empty, JS falsy); look up by email; if
found, sign a token over the stored record and return it unchanged; if
not found, 400 when name is absent, otherwise create a new visitor
(schema defaults: commentCount 0, isAdmin false, createdAt now) and
return a token over it.  `now` models `Date.now`. -/
def loginHandler (env : Option String) (db : DB) (now : Nat)
    (email name : Option String) : LoginResult × DB :=
  match email with
  | none => (.missingEmail, db)
  | some e =>
    if e = "" then (.missingEmail, db)
    else
      match findVisitorByEmail db e with
      | some visitor =>
        (.success (jwtSign (claimsOf visitor) (jwtSecret env)) (summaryOf visitor), db)
      | none =>
        match name with
        | none => (.missingName, db)
        | some nm =>
          if nm = "" then (.missingName, db)
          else
            let visitor := newVisitor db now e nm
            let db' : DB := { db with visitors := db.visitors ++ [visitor]
                                      nextVisitorId := db.nextVisitorId + 1 }
            (.success (jwtSign (claimsOf visitor) (jwtSecret env)) (summaryOf visitor), db')

/-- Result of `POST /api/comments`. -/
inductive SubmitResult where
  | missingMessage
  | visitorNotFound
  | created (commentNumber : Nat) (comment : Comment)
deriving Repr, DecidableEq

/-- The comment document built in the submit handler (src/index.js lines
244-251): visitor name/email snapshot, `approved: true` hardcoded, and
`commentNumber = visitor.commentCount + 1`. -/
def newComment (db : DB) (visitor : Visitor) (m : String) (now : Nat) : Comment :=
  { id := db.nextCommentId, name := visitor.name, email := visitor.email
    message := m, approved := true, visitorId := visitor.id
    commentNumber := visitor.commentCount + 1, createdAt := now }

/-- `POST /api/comments` handler (src/index.js lines 225-274): 400 when
message is absent/empty; 404 when the token's visitorId does not
resolve; otherwise compute `newCommentCount = visitor.commentCount + 1`,
create the comment snapshotting name/email with `approved: true` and
`commentNumber = newCommentCount`, save it, then save the visitor with
the new count and `lastCommentAt`. -/
def submitComment (db : DB) (user : Claims) (message : Option String)
    (now : Nat) : SubmitResult × DB :=
  match message with
  | none => (.missingMessage, db)
  | some m =>
    if m = "" then (.missingMessage, db)
    else
      match findVisitorById db user.visitorId with
      | none => (.visitorNotFound, db)
      | some visitor =>
        let newCommentCount := visitor.commentCount + 1
        let comment := newComment db visitor m now
        let visitor' : Visitor :=
          { visitor with commentCount := newCommentCount, lastCommentAt := some now }
        let db' : DB :=
          { db with comments := comment :: db.comments
                    nextCommentId := db.nextCommentId + 1
                    visitors := db.visitors.map
                      (fun w => if w.id = visitor.id then visitor' else w) }
        (.created newCommentCount comment, db')

/-- Iterate `POST /api/comments` over a list of messages for one
authenticated visitor, collecting the returned `commentNumber` of each
successful submission (stopping at the first failure). -/
def submitSeq (db : DB) (user : Claims) (now : Nat) : List String → DB × List Nat
  | [] => (db, [])
  | m :: rest =>
    match submitComment db user (some m) now with
    | (.created n _, db') =>
      let r := submitSeq db' user now rest
      (r.1, n :: r.2)
    | (_, db') => (db', [])

/-- The projection applied by
`.select("name message commentNumber createdAt")` on the public listing
(src/index.js line 282): only these four fields survive; the snapshot
email and the `visitorId` back-reference are dropped. -/
structure PublicComment where
  name : String
  message : String
  commentNumber : Nat
  createdAt : Nat
deriving Repr, DecidableEq

/-- Field projection for the public listing. -/
def projectPublic (c : Comment) : PublicComment :=
  { name := c.name, message := c.message
    commentNumber := c.commentNumber, createdAt := c.createdAt }

/-- Insert a comment into a list kept sorted by `createdAt` descending. -/
def insertDesc (c : Comment) : List Comment → List Comment
  | [] => [c]
  | y :: ys => if y.createdAt ≤ c.createdAt then c :: y :: ys else y :: insertDesc c ys

/-- `.sort({ createdAt: -1 })`: sort newest first. -/
def sortDesc (l : List Comment) : List Comment :=
  l.foldr insertDesc []

/-- The page cap `.limit(20)` of the public listing (src/index.js line 281). -/
def publicPageSize : Nat := 20

/-- `GET /api/comments` handler (src/index.js lines 276-289):
`Comment.find({ approved: true }).sort({ createdAt: -1 }).limit(20)
.select("name message commentNumber createdAt")`. -/
def listComments (db : DB) : List PublicComment :=
  ((sortDesc (db.comments.filter (fun c => c.approved))).take publicPageSize).map
    projectPublic

/-- Result of `PUT /api/comments/:id/approve`. -/
inductive ApproveResult where
  | notFound
  | approved (comment : Comment)
deriving Repr, DecidableEq

/-- `PUT /api/comments/:id/approve` handler (src/index.js lines 321-338):
`Comment.findByIdAndUpdate(id, { approved: true }, { new: true })` — 404
when the id does not resolve, otherwise set `approved := true` on the
stored record and return the updated document. -/
def approveComment (db : DB) (i : Nat) : ApproveResult × DB :=
  match findCommentById db i with
  | none => (.notFound, db)
  | some c =>
    let c' : Comment := { c with approved := true }
    (.approved c',
      { db with comments := db.comments.map (fun x => if x.id = i then { x with approved := true } else x) })

/-- The 500 response body written by every catch boundary
(src/index.js lines 171, 220, 272, 287, 301, 316, 336, 359):
`res.status(500).json({ message: "Server error", error: error.message })`. -/
structure ErrorBody where
  message : String
  error : Option String
deriving Repr, DecidableEq

/-- The catch-boundary body: the generic `"Server error"` text together
with the caught exception's `.message`. -/
def serverErrorBody (e : String) : ErrorBody :=
  { message := "Server error", error := some e }

/-! ### Concrete fixtures used to instantiate the theorems -/

/-- A configured signing secret. -/
def secretW : Option String := some "s3cret"

/-- A registered non-admin visitor. -/
def visitorAnn : Visitor :=
  { id := 1, name := "Ann", email := "a@x.com", commentCount := 0
    lastCommentAt := none, createdAt := 0, isAdmin := false }

/-- A registered admin visitor. -/
def visitorRoot : Visitor :=
  { id := 2, name := "Root", email := "root@x.com", commentCount := 0
    lastCommentAt := none, createdAt := 0, isAdmin := true }

/-- Claims as issued for `visitorAnn`. -/
def claimsW : Claims := claimsOf visitorAnn

/-- A valid token for `visitorAnn` under the configured secret. -/
def tokenW : SignedToken := jwtSign claimsW "s3cret"

/-- An expired token for `visitorAnn`. -/
def tokenExpiredW : SignedToken :=
  { claims := claimsW, secretUsed := "s3cret", expired := true }

/-- A token signed with a different key (tampered / badly signed). -/
def tokenTamperedW : SignedToken :=
  { claims := { claimsW with isAdmin := true }, secretUsed := "forged-key", expired := false }

/-- A token whose embedded claims assert admin although the stored
record for visitor 1 is not an admin. -/
def tokenClaimsAdminW : SignedToken :=
  jwtSign { claimsW with isAdmin := true } "s3cret"

/-- Store with the two visitors and no comments. -/
def dbW : DB :=
  { visitors := [visitorAnn, visitorRoot], comments := [], nextVisitorId := 3, nextCommentId := 1 }

/-- An already-approved comment by Ann. -/
def commentW : Comment :=
  { id := 1, name := "Ann", email := "a@x.com", message := "hi"
    approved := true, visitorId := 1, commentNumber := 1, createdAt := 10 }

/-- Store with the two visitors and one approved comment. -/
def dbC : DB :=
  { visitors := [visitorAnn, visitorRoot], comments := [commentW]
    nextVisitorId := 3, nextCommentId := 2 }

/-- The empty store. -/
def dbEmpty : DB := { visitors := [], comments := [], nextVisitorId := 0, nextCommentId := 0 }

/-! ### Theorems -/

/-- C7: on a visitor-protected endpoint, an absent bearer credential is
rejected with 401 `MissingToken`; a credential failing verification is
rejected with 403 `InvalidToken`; only a verifying credential attaches
its claims and reaches the handler; an expired or tampered token never
proceeds. -/
theorem c7_protected_endpoint_auth (env : Option String) (h : Option AuthHeader) :
    (extractToken h = none →
      authenticateToken env h = .unauthenticated "Access token required") ∧
    (∀ t, extractToken h = some t → jwtVerify (jwtSecret env) t = none →
      authenticateToken env h = .forbidden "Invalid token") ∧
    (∀ t c, extractToken h = some t → jwtVerify (jwtSecret env) t = some c →
      authenticateToken env h = .proceed c) ∧
    (∀ t c, extractToken h = some t →
      (t.expired = true ∨ t.secretUsed ≠ jwtSecret env) →
      authenticateToken env h ≠ .proceed c) := by
  refine ⟨?_, ?_, ?_, ?_⟩
  · intro hnone
    simp [authenticateToken, hnone]
  · intro t ht hfail
    simp [authenticateToken, ht, hfail]
  · intro t c ht hok
    simp [authenticateToken, ht, hok]
  · intro t c ht hbad
    have hfail : jwtVerify (jwtSecret env) t = none := by
      unfold jwtVerify
      rcases hbad with hb | hb <;> simp [hb]
    simp [authenticateToken, ht, hfail]

/-- Witness for C7 at concrete inputs: missing header, tampered token,
valid token, and expired token. -/
theorem c7_witness :
    authenticateToken secretW none = .unauthenticated "Access token required" ∧
    authenticateToken secretW (some { scheme := "Bearer", credential := some tokenTamperedW }) =
      .forbidden "Invalid token" ∧
    authenticateToken secretW (some { scheme := "Bearer", credential := some tokenW }) =
      .proceed claimsW ∧
    authenticateToken secretW (some { scheme := "Bearer", credential := some tokenExpiredW }) ≠
      .proceed claimsW := by
  refine ⟨?_, ?_, ?_, ?_⟩
  · exact (c7_protected_endpoint_auth secretW none).1 rfl
  · exact (c7_protected_endpoint_auth secretW _).2.1 tokenTamperedW rfl (by decide)
  · exact (c7_protected_endpoint_auth secretW _).2.2.1 tokenW claimsW rfl (by decide)
  · exact (c7_protected_endpoint_auth secretW _).2.2.2 tokenExpiredW claimsW rfl (Or.inl rfl)

/-- C2: with a valid token, the admin gate decides by the `isAdmin`
flag stored in the Identity Store for the token's visitorId — not by
the token's embedded `isAdmin` claim (which does not occur in the
statement): a stored non-admin is rejected 403 Forbidden (never 404,
never success), a stored admin proceeds. -/
theorem c2_admin_gate_uses_stored_role (env : Option String) (db : DB)
    (hdr : AuthHeader) (t : SignedToken) (v : Visitor)
    (ht : hdr.credential = some t)
    (hsig : t.secretUsed = jwtSecret env) (hexp : t.expired = false)
    (hv : findVisitorById db t.claims.visitorId = some v) :
    authenticateAdmin env db (some hdr) =
      (if v.isAdmin then .proceed t.claims else .forbidden "Admin access denied") := by
  simp [authenticateAdmin, extractToken, ht, jwtVerify, hsig, hexp, hv]

/-- Witness for C2: a token whose embedded claims assert admin, while
the stored record for visitor 1 is non-admin — the gate rejects with
403 Forbidden; and a valid token for the stored admin proceeds. -/
theorem c2_witness :
    authenticateAdmin secretW dbW (some { scheme := "Bearer", credential := some tokenClaimsAdminW }) =
      .forbidden "Admin access denied" ∧
    authenticateAdmin secretW dbW
        (some { scheme := "Bearer", credential := some (jwtSign (claimsOf visitorRoot) "s3cret") }) =
      .proceed (claimsOf visitorRoot) := by
  constructor
  · have h := c2_admin_gate_uses_stored_role secretW dbW
      { scheme := "Bearer", credential := some tokenClaimsAdminW }
      tokenClaimsAdminW visitorAnn rfl rfl rfl (by decide)
    simpa using h
  · have h := c2_admin_gate_uses_stored_role secretW dbW
      { scheme := "Bearer", credential := some (jwtSign (claimsOf visitorRoot) "s3cret") }
      (jwtSign (claimsOf visitorRoot) "s3cret") visitorRoot rfl rfl rfl (by decide)
    simpa using h

/-- C8 (code bug): with the secret configuration absent, the code does
not fail closed — `process.env.JWT_SECRET || "your-secret-key"`
silently falls back to the fixed literal, and login still succeeds,
issuing a token signed with the guessable default. -/
theorem c8_secret_fallback_not_fail_closed :
    jwtSecret none = "your-secret-key" ∧
    (loginHandler none dbEmpty 0 (some "a@x.com") (some "Ann")).1 =
      .success (jwtSign (claimsOf (newVisitor dbEmpty 0 "a@x.com" "Ann")) "your-secret-key")
        (summaryOf (newVisitor dbEmpty 0 "a@x.com" "Ann")) ∧
    (jwtSign (claimsOf (newVisitor dbEmpty 0 "a@x.com" "Ann")) "your-secret-key").secretUsed =
      "your-secret-key" := by
  refine ⟨rfl, by decide, rfl⟩

/-- C9 counterexample: at a concrete store exception, the 500 body
produced by the catch boundary contains the underlying exception's
message verbatim in its `error` field — refuting the claim that the
response body never includes the exception's message. -/
theorem c9_counterexample :
    (serverErrorBody "MongoNetworkError: connect ECONNREFUSED 127.0.0.1:27017").error =
      some "MongoNetworkError: connect ECONNREFUSED 127.0.0.1:27017" ∧
    (serverErrorBody "MongoNetworkError: connect ECONNREFUSED 127.0.0.1:27017").error ≠
      none := ⟨rfl, by decide⟩

/-- C9 amended: the catch boundary always surfaces the fixed generic
`"Server error"` text as the message, together with the underlying
exception's message in the `error` field (stack traces are not part of
the body). -/
theorem c9_amended_error_body (e : String) :
    (serverErrorBody e).message = "Server error" ∧ (serverErrorBody e).error = some e :=
  ⟨rfl, rfl⟩

/-- C4 counterexample: visitor 1 is stored with name `"Ann"`; logging in
with her email and the different name `"Bob"` leaves the stored name
`"Ann"` — the login handler never updates the stored name, refuting the
claim that a different supplied name updates it. -/
theorem c4_counterexample :
    (((loginHandler secretW dbW 5 (some "a@x.com") (some "Bob")).2.visitors.find?
        (fun v => v.email = "a@x.com")).map Visitor.name = some "Ann") ∧
    ("Ann" : String) ≠ "Bob" := by
  constructor
  · rfl
  · decide

/-- C4 amended: for an existing email, login-or-register leaves the
store entirely unchanged — name, role and commentCount are all
unaltered regardless of the supplied name — and returns a token over
the stored (unmodified) record. -/
theorem c4_amended_login_existing_noop (env : Option String) (db : DB) (now : Nat)
    (e : String) (nm : Option String) (v : Visitor)
    (he : e ≠ "") (hv : findVisitorByEmail db e = some v) :
    loginHandler env db now (some e) nm =
      (.success (jwtSign (claimsOf v) (jwtSecret env)) (summaryOf v), db) := by
  simp [loginHandler, he, hv]

/-- Witness for C4 amended: logging in as the stored Ann with a new
name returns success over the stored record and does not touch the
store. -/
theorem c4_witness :
    loginHandler secretW dbW 5 (some "a@x.com") (some "Bob") =
      (.success (jwtSign (claimsOf visitorAnn) (jwtSecret secretW)) (summaryOf visitorAnn), dbW) :=
  c4_amended_login_existing_noop secretW dbW 5 "a@x.com" (some "Bob") visitorAnn
    (by decide) (by decide)

/-- C5: for an email not in the store, login-or-register with a
(non-empty) name appends exactly one new Visitor — with commentCount 0
and the non-admin flag — and returns a token plus that visitor's
summary; with the name absent it fails with MissingName and the store
is unchanged. -/
theorem c5_login_new_email (env : Option String) (db : DB) (now : Nat) (e : String)
    (he : e ≠ "") (hnew : findVisitorByEmail db e = none) :
    (∀ nm : String, nm ≠ "" →
      loginHandler env db now (some e) (some nm) =
        (.success (jwtSign (claimsOf (newVisitor db now e nm)) (jwtSecret env))
                  (summaryOf (newVisitor db now e nm)),
         { db with visitors := db.visitors ++ [newVisitor db now e nm]
                   nextVisitorId := db.nextVisitorId + 1 }) ∧
      (newVisitor db now e nm).commentCount = 0 ∧
      (newVisitor db now e nm).isAdmin = false) ∧
    (loginHandler env db now (some e) none = (.missingName, db)) := by
  constructor
  · intro nm hnm
    refine ⟨?_, rfl, rfl⟩
    simp [loginHandler, he, hnew, hnm]
  · simp [loginHandler, he, hnew]

/-- Witness for C5: registering a brand-new email creates the one new
visitor with commentCount 0 and isAdmin false, and omitting the name
fails without creating anything. -/
theorem c5_witness :
    (loginHandler secretW dbW 7 (some "new@x.com") (some "Eve") =
      (.success (jwtSign (claimsOf (newVisitor dbW 7 "new@x.com" "Eve")) (jwtSecret secretW))
                (summaryOf (newVisitor dbW 7 "new@x.com" "Eve")),
       { dbW with visitors := dbW.visitors ++ [newVisitor dbW 7 "new@x.com" "Eve"]
                  nextVisitorId := dbW.nextVisitorId + 1 }) ∧
     (newVisitor dbW 7 "new@x.com" "Eve").commentCount = 0 ∧
     (newVisitor dbW 7 "new@x.com" "Eve").isAdmin = false) ∧
    loginHandler secretW dbW 7 (some "new@x.com") none = (.missingName, dbW) := by
  have h := c5_login_new_email secretW dbW 7 "new@x.com" (by decide) (by decide)
  exact ⟨h.1 "Eve" (by decide), h.2⟩

/-- Setting `approved := true` on an already-approved comment is the
identity. -/
lemma setApproved_eq_self {c : Comment} (h : c.approved = true) :
    ({ c with approved := true } : Comment) = c := by
  cases c
  subst h
  rfl

/-- With id-uniqueness, the record `find?` returns for an id is the only
record in the collection bearing that id. -/
lemma find?_nodup_unique {l : List Comment} {i : Nat} {c : Comment}
    (hnd : (l.map Comment.id).Nodup)
    (hf : l.find? (fun x => x.id = i) = some c) :
    ∀ x ∈ l, x.id = i → x = c := by
  induction l with
  | nil => simp at hf
  | cons y ys ih =>
    rw [List.map_cons, List.nodup_cons] at hnd
    intro x hx hxi
    by_cases hy : y.id = i
    · rw [List.find?_cons_of_pos _ (by simpa using hy)] at hf
      injection hf with hf
      subst hf
      rcases List.mem_cons.mp hx with rfl | hx'
      · rfl
      · refine absurd ?_ hnd.1
        rw [hy.trans hxi.symm]
        exact List.mem_map_of_mem Comment.id hx'
    · rw [List.find?_cons_of_neg _ (by simpa using hy)] at hf
      rcases List.mem_cons.mp hx with rfl | hx'
      · exact absurd hxi hy
      · exact ih hnd.2 hf x hx' hxi

/-- The approve-update map is the identity when every record bearing
the id is already approved. -/
lemma map_setApproved_noop {l : List Comment} {i : Nat}
    (h : ∀ x ∈ l, x.id = i → x.approved = true) :
    l.map (fun x => if x.id = i then { x with approved := true } else x) = l := by
  induction l with
  | nil => rfl
  | cons y ys ih =>
    rw [List.map_cons]
    by_cases hy : y.id = i
    · rw [if_pos hy, setApproved_eq_self (h y (List.mem_cons_self y ys) hy),
        ih (fun x hx hxi => h x (List.mem_cons_of_mem y hx) hxi)]
    · rw [if_neg hy, ih (fun x hx hxi => h x (List.mem_cons_of_mem y hx) hxi)]

/-- C6: the admin-approve operation is idempotent — re-approving an
already-approved comment returns success with the unchanged comment and
leaves the store unchanged; an unresolvable id fails with NotFound.
(Id-uniqueness is the store's `_id` invariant.) -/
theorem c6_approve_idempotent (db : DB) (i : Nat)
    (hnodup : (db.comments.map Comment.id).Nodup) :
    (∀ c, findCommentById db i = some c → c.approved = true →
      approveComment db i = (.approved c, db)) ∧
    (findCommentById db i = none → approveComment db i = (.notFound, db)) := by
  constructor
  · intro c hf happ
    have hall : ∀ x ∈ db.comments, x.id = i → x.approved = true := by
      intro x hx hxi
      rw [find?_nodup_unique hnodup hf x hx hxi]
      exact happ
    unfold approveComment
    rw [hf]
    simp [map_setApproved_noop hall, setApproved_eq_self happ]
  · intro hf
    unfold approveComment
    rw [hf]

/-- Witness for C6: re-approving the already-approved comment 1 in the
concrete store succeeds with the unchanged comment and store, and the
unknown id 99 yields NotFound. -/
theorem c6_witness :
    approveComment dbC 1 = (.approved commentW, dbC) ∧
    approveComment dbC 99 = (.notFound, dbC) := by
  refine ⟨(c6_approve_idempotent dbC 1 (by decide)).1 commentW (by decide) rfl,
    (c6_approve_idempotent dbC 99 (by decide)).2 (by decide)⟩

/-- After saving an updated visitor record (same id), `findById` for
that id returns the updated record. -/
lemma find?_map_update {l : List Visitor} {i : Nat} {v v' : Visitor}
    (h : l.find? (fun w => w.id = i) = some v) (hid : v'.id = v.id) :
    (l.map (fun w => if w.id = v.id then v' else w)).find? (fun w => w.id = i) =
      some v' := by
  have hvi : v.id = i := by simpa using List.find?_some h
  induction l with
  | nil => simp at h
  | cons y ys ih =>
    rw [List.map_cons]
    by_cases hy : y.id = i
    · rw [List.find?_cons_of_pos _ (by simpa using hy)] at h
      injection h with h
      subst h
      rw [if_pos rfl]
      exact List.find?_cons_of_pos _ (by simp [hid, hvi])
    · rw [List.find?_cons_of_neg _ (by simpa using hy)] at h
      have hcond : ¬ y.id = v.id := by rw [hvi]; exact hy
      rw [if_neg hcond, List.find?_cons_of_neg _ (by simpa using hy)]
      exact ih h

/-- Characterisation of a successful submit: ordinal
`visitor.commentCount + 1`, the new comment prepended, the visitor
saved with the advanced count and timestamp. -/
lemma submitComment_success (db : DB) (u : Claims) (m : String) (now : Nat) (v : Visitor)
    (hm : m ≠ "") (hv : findVisitorById db u.visitorId = some v) :
    submitComment db u (some m) now =
      (.created (v.commentCount + 1) (newComment db v m now),
       { db with comments := newComment db v m now :: db.comments
                 nextCommentId := db.nextCommentId + 1
                 visitors := db.visitors.map (fun w =>
                   if w.id = v.id then
                     { v with commentCount := v.commentCount + 1, lastCommentAt := some now }
                   else w) }) := by
  simp [submitComment, hm, hv]

/-- Generalised C1 induction: from a current count `v.commentCount`, a
run of successful submissions yields the consecutive ordinals starting
at `v.commentCount + 1` and advances the stored count by the number of
submissions. -/
lemma submitSeq_spec (u : Claims) (now : Nat) (msgs : List String) :
    ∀ db v, (∀ m ∈ msgs, m ≠ "") → findVisitorById db u.visitorId = some v →
      (submitSeq db u now msgs).2 = List.range' (v.commentCount + 1) msgs.length ∧
      ∃ v', findVisitorById (submitSeq db u now msgs).1 u.visitorId = some v' ∧
        v'.commentCount = v.commentCount + msgs.length := by
  induction msgs with
  | nil =>
    intro db v _ hv
    exact ⟨rfl, v, hv, rfl⟩
  | cons m rest ih =>
    intro db v hm hv
    have hstep := submitComment_success db u m now v (hm m (List.mem_cons_self m rest)) hv
    have hfind : findVisitorById (submitComment db u (some m) now).2 u.visitorId =
        some { v with commentCount := v.commentCount + 1, lastCommentAt := some now } := by
      rw [hstep]
      exact find?_map_update hv rfl
    have hrec := ih (submitComment db u (some m) now).2
      { v with commentCount := v.commentCount + 1, lastCommentAt := some now }
      (fun x hx => hm x (List.mem_cons_of_mem m hx)) hfind
    have hgoal : submitSeq db u now (m :: rest) =
        ((submitSeq (submitComment db u (some m) now).2 u now rest).1,
         (v.commentCount + 1) :: (submitSeq (submitComment db u (some m) now).2 u now rest).2) := by
      show (match submitComment db u (some m) now with
        | (.created n _, db') =>
          let r := submitSeq db' u now rest
          (r.1, n :: r.2)
        | (_, db') => (db', [])) = _
      rw [hstep]
    rw [hgoal]
    constructor
    · show (v.commentCount + 1) ::
        (submitSeq (submitComment db u (some m) now).2 u now rest).2 = _
      rw [hrec.1, List.length_cons, List.range'_succ]
    · rcases hrec.2 with ⟨v', hv', hcnt⟩
      refine ⟨v', hv', ?_⟩
      simp only [List.length_cons] at hcnt ⊢
      omega

/-- C1: starting from commentCount 0, every sequence of N successful
submissions by one visitor yields commentNumbers exactly 1..N in
submission order, and the stored commentCount equals N afterwards. -/
theorem c1_comment_ordinals (db : DB) (u : Claims) (now : Nat) (v : Visitor)
    (msgs : List String)
    (hv : findVisitorById db u.visitorId = some v) (h0 : v.commentCount = 0)
    (hm : ∀ m ∈ msgs, m ≠ "") :
    (submitSeq db u now msgs).2 = List.range' 1 msgs.length ∧
    ∃ v', findVisitorById (submitSeq db u now msgs).1 u.visitorId = some v' ∧
      v'.commentCount = msgs.length := by
  have h := submitSeq_spec u now msgs db v hm hv
  rw [h0] at h
  simpa using h

/-- Witness for C1: three submissions by Ann produce the ordinals
1, 2, 3 and leave her stored commentCount at 3. -/
theorem c1_witness :
    (submitSeq dbW claimsW 10 ["hi", "again", "third"]).2 = [1, 2, 3] ∧
    ∃ v', findVisitorById (submitSeq dbW claimsW 10 ["hi", "again", "third"]).1
        claimsW.visitorId = some v' ∧ v'.commentCount = 3 := by
  have h := c1_comment_ordinals dbW claimsW 10 visitorAnn ["hi", "again", "third"]
    (by decide) rfl (by decide)
  refine ⟨?_, h.2⟩
  rw [h.1]
  rfl

/-- Membership is preserved by `insertDesc`. -/
lemma mem_insertDesc {x c : Comment} {l : List Comment} :
    x ∈ insertDesc c l ↔ x = c ∨ x ∈ l := by
  induction l with
  | nil => simp [insertDesc]
  | cons y ys ih =>
    rw [insertDesc]
    by_cases h : y.createdAt ≤ c.createdAt
    · rw [if_pos h]
      simp [List.mem_cons]
    · rw [if_neg h]
      simp only [List.mem_cons, ih]
      tauto

/-- `insertDesc` preserves descending sortedness. -/
lemma sorted_insertDesc {c : Comment} {l : List Comment}
    (h : l.Pairwise (fun a b => b.createdAt ≤ a.createdAt)) :
    (insertDesc c l).Pairwise (fun a b => b.createdAt ≤ a.createdAt) := by
  induction l with
  | nil => simp [insertDesc]
  | cons y ys ih =>
    rw [List.pairwise_cons] at h
    rw [insertDesc]
    by_cases hc : y.createdAt ≤ c.createdAt
    · rw [if_pos hc]
      refine List.Pairwise.cons ?_ (List.Pairwise.cons h.1 h.2)
      intro z hz
      rcases List.mem_cons.mp hz with rfl | hz'
      · exact hc
      · exact le_trans (h.1 z hz') hc
    · rw [if_neg hc]
      refine List.Pairwise.cons ?_ (ih h.2)
      intro z hz
      rcases mem_insertDesc.mp hz with rfl | hz'
      · exact le_of_not_le hc
      · exact h.1 z hz'

/-- The sort of the public listing is sorted by `createdAt` descending. -/
lemma sorted_sortDesc (l : List Comment) :
    (sortDesc l).Pairwise (fun a b => b.createdAt ≤ a.createdAt) := by
  induction l with
  | nil => simp [sortDesc]
  | cons y ys ih => exact sorted_insertDesc ih

/-- The sort of the public listing preserves membership. -/
lemma mem_sortDesc {x : Comment} {l : List Comment} :
    x ∈ sortDesc l ↔ x ∈ l := by
  induction l with
  | nil => simp [sortDesc]
  | cons y ys ih =>
    show x ∈ insertDesc y (sortDesc ys) ↔ _
    rw [mem_insertDesc, ih, List.mem_cons]

/-- C3: every entry of the public listing comes from an approved stored
comment; the listing is sorted newest first; its length is capped at
the fixed page size, which lies within 20..50; and the projection
depends only on name, message, commentNumber and createdAt — two
comments differing only in email or visitorId project identically, so
neither field can leak into the response. -/
theorem c3_public_listing (db : DB) :
    (∀ p ∈ listComments db, ∃ c ∈ db.comments, c.approved = true ∧ p = projectPublic c) ∧
    (listComments db).Pairwise (fun a b => b.createdAt ≤ a.createdAt) ∧
    (listComments db).length ≤ publicPageSize ∧
    20 ≤ publicPageSize ∧ publicPageSize ≤ 50 ∧
    (∀ c c', c.name = c'.name → c.message = c'.message →
      c.commentNumber = c'.commentNumber → c.createdAt = c'.createdAt →
      projectPublic c = projectPublic c') := by
  refine ⟨?_, ?_, ?_, by decide, by decide, ?_⟩
  · intro p hp
    rw [listComments] at hp
    rcases List.mem_map.mp hp with ⟨c, hc, rfl⟩
    have hc2 : c ∈ sortDesc (db.comments.filter (fun c => c.approved)) :=
      List.mem_of_mem_take hc
    have hc3 := List.mem_filter.mp (mem_sortDesc.mp hc2)
    exact ⟨c, hc3.1, by simpa using hc3.2, rfl⟩
  · rw [listComments]
    exact List.Pairwise.map projectPublic (fun a b hab => hab)
      (List.Pairwise.sublist (List.take_sublist _ _) (sorted_sortDesc _))
  · rw [listComments, List.length_map, List.length_take]
    exact min_le_left _ _
  · intro c c' h1 h2 h3 h4
    simp [projectPublic, h1, h2, h3, h4]

/-- Witness for C3: the single listed entry of the concrete store comes
from an approved stored comment. -/
theorem c3_witness :
    ∃ c ∈ dbC.comments, c.approved = true ∧
      projectPublic commentW = projectPublic c :=
  (c3_public_listing dbC).1 (projectPublic commentW) (by decide)

/-- Inserting a comment at least as new as everything in the list puts
it at the head. -/
lemma insertDesc_max {c : Comment} {l : List Comment}
    (h : ∀ y ∈ l, y.createdAt ≤ c.createdAt) : insertDesc c l = c :: l := by
  cases l with
  | nil => rfl
  | cons y ys => rw [insertDesc, if_pos (h y (List.mem_cons_self y ys))]

/-- C10: submit hardcodes `approved: true` (the comment schema default
is false), so a successful submission's comment is approved and — being
at least as new as everything stored — appears immediately at the head
of the public listing, with no admin-approve action. -/
theorem c10_auto_approved_visible (db : DB) (u : Claims) (m : String) (now : Nat)
    (v : Visitor) (hm : m ≠ "") (hv : findVisitorById db u.visitorId = some v)
    (hnow : ∀ c ∈ db.comments, c.createdAt ≤ now) :
    commentSchemaApprovedDefault = false ∧
    (newComment db v m now).approved = true ∧
    (submitComment db u (some m) now).1 =
      .created (v.commentCount + 1) (newComment db v m now) ∧
    (listComments (submitComment db u (some m) now).2).head? =
      some (projectPublic (newComment db v m now)) := by
  refine ⟨rfl, rfl, ?_, ?_⟩
  · rw [submitComment_success db u m now v hm hv]
  · rw [submitComment_success db u m now v hm hv]
    have hfilter : (newComment db v m now :: db.comments).filter (fun c => c.approved) =
        newComment db v m now :: db.comments.filter (fun c => c.approved) :=
      List.filter_cons_of_pos rfl
    have hsort : sortDesc (newComment db v m now :: db.comments.filter (fun c => c.approved)) =
        newComment db v m now :: sortDesc (db.comments.filter (fun c => c.approved)) :=
      insertDesc_max (fun y hy =>
        hnow y (List.mem_filter.mp (mem_sortDesc.mp hy)).1)
    show ((sortDesc ((newComment db v m now :: db.comments).filter
        (fun c => c.approved))).take publicPageSize |>.map projectPublic).head? = _
    rw [hfilter, hsort]
    rfl

/-- Witness for C10: submitting in the concrete store yields an
approved comment that heads the public listing at once. -/
theorem c10_witness :
    commentSchemaApprovedDefault = false ∧
    (newComment dbC visitorAnn "fresh" 11).approved = true ∧
    (submitComment dbC claimsW (some "fresh") 11).1 =
      .created (visitorAnn.commentCount + 1) (newComment dbC visitorAnn "fresh" 11) ∧
    (listComments (submitComment dbC claimsW (some "fresh") 11).2).head? =
      some (projectPublic (newComment dbC visitorAnn "fresh" 11)) :=
  c10_auto_approved_visible dbC claimsW "fresh" 11 visitorAnn (by decide) (by decide)
    (by decide)

end Backend
